import Mathlib

/-!
Shallow embedding of the tool-orchestration pipeline of the
`agentic-llm-platform` repository.

Modelled source files:
* `app/tools/base.py`        — `BaseTool.validate_params`, `format_result`, `format_error`
* `app/tools/code_execute.py`— `CodeExecuteTool.execute`, `_check_code_security`, `_execute_code`
* `app/tools/pdf_parser.py`  — `PDFParserTool._parse_page_range`
* `app/agent/orchestrator.py`— `AgentOrchestrator._select_tools`, `_execute_tools`,
  `_extract_pdf_urls_from_search`, `process_query`

Modelling conventions.  Python values are embedded as the inductive type
`PyVal` (strings, booleans, ints, None, lists, dicts as ordered key/value
association lists, and exception objects).  Raising Python code is embedded
as `Except PyExc _`; a caught exception corresponds to matching on the
`.error` branch exactly where the source has `try`/`except`.  Python string
primitives are modelled on `List Char` (Lean's built-in `String.splitOn`
et al. do not matter here; the char-level definitions below mirror the
Python semantics on the ASCII inputs the program manipulates).
-/

/-- A Python exception value: class name and `str(e)` message. -/
structure PyExc where
  ty : String
  msg : String
deriving DecidableEq, Repr

/-- Embedded Python value.  `pynone` is Python `None`; `dict` is an ordered
association list (Python dicts preserve insertion order and have unique
keys); `exc` is an exception object (used to state that failure payloads
are strings, never raw exception objects). -/
inductive PyVal where
  | str (s : String)
  | bool (b : Bool)
  | int (n : Int)
  | pynone
  | list (l : List PyVal)
  | dict (d : List (String × PyVal))
  | exc (e : PyExc)

/-- Key lookup in an embedded dict (first occurrence, as in a Python dict). -/
def pyLookup (d : List (String × PyVal)) (k : String) : Option PyVal :=
  List.lookup k d

/-- Python `d.get(k, default)`. -/
def pyGetD (d : List (String × PyVal)) (k : String) (dflt : PyVal) : PyVal :=
  (pyLookup d k).getD dflt

/-- Python `k in d` for a dict. -/
def pyHasKey (d : List (String × PyVal)) (k : String) : Bool :=
  (pyLookup d k).isSome

/-- Python truthiness of a value. -/
def pyTruthy : PyVal → Bool
  | .str s => !(s == "")
  | .bool b => b
  | .int n => !(n == 0)
  | .pynone => false
  | .list l => !l.isEmpty
  | .dict d => !d.isEmpty
  | .exc _ => true

/-- Whether a value is a Python string. -/
def PyVal.isStr : PyVal → Bool
  | .str _ => true
  | _ => false

/-- Whether a value is an exception object. -/
def PyVal.isExc : PyVal → Bool
  | .exc _ => true
  | _ => false

mutual

/-- Rendering of Python `str(v)`.  Claims never depend on the rendering of
nested containers; scalars match `str`'s output. -/
def pyStr : PyVal → String
  | .str s => s
  | .bool b => if b then "True" else "False"
  | .int n => toString n
  | .pynone => "None"
  | .exc e => e.msg
  | .list l => "[" ++ String.intercalate ", " (pyStrList l) ++ "]"
  | .dict d => String.intercalate ", " (pyStrDict d)
termination_by v => sizeOf v

/-- `str` applied elementwise to a list of values. -/
def pyStrList : List PyVal → List String
  | [] => []
  | v :: vs => pyStr v :: pyStrList vs
termination_by l => sizeOf l

/-- `str` applied to the entries of a dict. -/
def pyStrDict : List (String × PyVal) → List String
  | [] => []
  | (k, v) :: rest => (k ++ ": " ++ pyStr v) :: pyStrDict rest
termination_by d => sizeOf d

end

mutual

/-- Python `==` between embedded values (`True == 1` holds in Python because
`bool` is a subclass of `int`; dict comparison is order-insensitive). -/
def pyEq : PyVal → PyVal → Bool
  | .str a, .str b => a == b
  | .bool a, .bool b => a == b
  | .int a, .int b => a == b
  | .bool a, .int b => (if a then (1 : Int) else 0) == b
  | .int a, .bool b => a == (if b then (1 : Int) else 0)
  | .pynone, .pynone => true
  | .list a, .list b => pyEqList a b
  | .dict a, .dict b => a.length == b.length && pyEqDict a b
  | _, _ => false
termination_by a _ => sizeOf a

/-- Elementwise `==` on lists. -/
def pyEqList : List PyVal → List PyVal → Bool
  | [], [] => true
  | x :: xs, y :: ys => pyEq x y && pyEqList xs ys
  | _, _ => false
termination_by a _ => sizeOf a

/-- Every entry of the first dict matches the second under `==`. -/
def pyEqDict : List (String × PyVal) → List (String × PyVal) → Bool
  | [], _ => true
  | (k, v) :: rest, b =>
      (match pyLookup b k with
        | some w => pyEq v w
        | Option.none => false) && pyEqDict rest b
termination_by a _ => sizeOf a

end

/-- Python `v in l` for a list (membership via `==`). -/
def pyInList (v : PyVal) (l : List PyVal) : Bool := l.any (pyEq v)

/-- Python `<` between embedded values; mixed combinations other than the
numeric ones raise `TypeError`, exactly as in Python 3. -/
def pyLt : PyVal → PyVal → Except PyExc Bool
  | .int a, .int b => .ok (a < b)
  | .bool a, .int b => .ok ((if a then (1 : Int) else 0) < b)
  | .int a, .bool b => .ok (a < (if b then (1 : Int) else 0))
  | .bool a, .bool b => .ok ((if a then (1 : Int) else 0) < (if b then 1 else 0))
  | .str a, .str b => .ok (compare a b == Ordering.lt)
  | _, _ => .error ⟨"TypeError", "unsupported operand types for comparison"⟩

/-- Python `>`. -/
def pyGt : PyVal → PyVal → Except PyExc Bool
  | .int a, .int b => .ok (a > b)
  | .bool a, .int b => .ok ((if a then (1 : Int) else 0) > b)
  | .int a, .bool b => .ok (a > (if b then (1 : Int) else 0))
  | .bool a, .bool b => .ok ((if a then (1 : Int) else 0) > (if b then 1 else 0))
  | .str a, .str b => .ok (compare a b == Ordering.gt)
  | _, _ => .error ⟨"TypeError", "unsupported operand types for comparison"⟩

/-- Char-list substring containment: some tail of `s` starts with `sub`. -/
def listContainsSub (s sub : List Char) : Bool :=
  match s with
  | [] => sub.isEmpty
  | _ :: tl => sub.isPrefixOf s || listContainsSub tl sub

/-- Python `sub in s` on strings (substring containment). -/
def strContains (s sub : String) : Bool :=
  listContainsSub s.toList sub.toList

/-- Python `s.strip()` (strip surrounding whitespace). -/
def pyStrip (s : String) : String :=
  String.mk (((s.toList.dropWhile Char.isWhitespace).reverse.dropWhile
    Char.isWhitespace).reverse)

/-- Python `s.split(sep)` for a one-character separator. -/
def pySplitChar (c : Char) (s : String) : List String :=
  (s.toList.splitOn c).map String.mk

/-- Python `s.lower()` (ASCII case folding suffices here). -/
def pyLower (s : String) : String :=
  String.mk (s.toList.map Char.toLower)

/-- Python `s.endswith(suffix)`. -/
def pyEndsWith (s suffix : String) : Bool :=
  suffix.toList.isSuffixOf s.toList

/-! ### `app/tools/base.py` -/

/-- One parameter's declaration inside a `BaseTool.parameters` dict: the
fields read by `validate_params` (`type`, `required`, `enum`, `minimum`,
`maximum`; `description` and `default` are never read there). -/
structure ParamSpec where
  type : Option String := Option.none
  required : Bool := false
  enum : Option (List PyVal) := Option.none
  minimum : Option PyVal := Option.none
  maximum : Option PyVal := Option.none

/-- A capability spec: ordered mapping from parameter name to `ParamSpec`. -/
abbrev CapSpec := List (String × ParamSpec)

/-- First loop of `BaseTool.validate_params`: one error per
required-but-missing parameter, in declaration order. -/
def missingParamErrors (spec : CapSpec) (params : List (String × PyVal)) :
    List String :=
  spec.filterMap (fun ps =>
    if ps.2.required && !(pyHasKey params ps.1) then
      some ("Missing required parameter: " ++ ps.1)
    else Option.none)

/-- The elif chain of structural type checks in `validate_params`
(`isinstance(True, int)` holds in Python, so booleans pass the `number`
and `integer` checks). -/
def typeCheckErrors (name : String) (spec : ParamSpec) (v : PyVal) :
    List String :=
  match spec.type with
  | some "string" =>
      if v.isStr then [] else ["Parameter " ++ name ++ " should be a string"]
  | some "number" =>
      match v with
      | .int _ => [] | .bool _ => []
      | _ => ["Parameter " ++ name ++ " should be a number"]
  | some "integer" =>
      match v with
      | .int _ => [] | .bool _ => []
      | _ => ["Parameter " ++ name ++ " should be an integer"]
  | some "boolean" =>
      match v with
      | .bool _ => []
      | _ => ["Parameter " ++ name ++ " should be a boolean"]
  | some "array" =>
      match v with
      | .list _ => []
      | _ => ["Parameter " ++ name ++ " should be an array"]
  | some "object" =>
      match v with
      | .dict _ => []
      | _ => ["Parameter " ++ name ++ " should be an object"]
  | _ => []

/-- Body of the second loop of `validate_params` for one supplied parameter:
unknown-name check (with `continue`), type check, enum check, and the
minimum/maximum comparisons, which can raise `TypeError` on incomparable
operands (Python `<`/`>` between, e.g., `str` and `int`). -/
def checkSuppliedParam (spec : CapSpec) (name : String) (v : PyVal) :
    Except PyExc (List String) :=
  match List.lookup name spec with
  | Option.none => .ok ["Unknown parameter: " ++ name]
  | some ps =>
    let tyErrs := typeCheckErrors name ps v
    let enumErrs :=
      match ps.enum with
      | Option.none => []
      | some allowed =>
        if !(pyInList v allowed) then
          ["Parameter " ++ name ++ " must be one of: " ++
            String.intercalate ", " (allowed.map pyStr)]
        else []
    match ps.minimum with
    | Option.none =>
      match ps.maximum with
      | Option.none => .ok (tyErrs ++ enumErrs)
      | some m =>
        match pyGt v m with
        | .error e => .error e
        | .ok gt =>
          .ok (tyErrs ++ enumErrs ++
            (if gt then ["Parameter " ++ name ++ " must be at most " ++ pyStr m]
             else []))
    | some lo =>
      match pyLt v lo with
      | .error e => .error e
      | .ok lt =>
        let minErrs :=
          if lt then ["Parameter " ++ name ++ " must be at least " ++ pyStr lo]
          else []
        match ps.maximum with
        | Option.none => .ok (tyErrs ++ enumErrs ++ minErrs)
        | some m =>
          match pyGt v m with
          | .error e => .error e
          | .ok gt =>
            .ok (tyErrs ++ enumErrs ++ minErrs ++
              (if gt then ["Parameter " ++ name ++ " must be at most " ++ pyStr m]
               else []))

/-- The `for param_name, param_value in params.items()` loop of
`validate_params`, appending each supplied parameter's errors in order; a
raised `TypeError` propagates. -/
def checkParamsLoop (spec : CapSpec) :
    List (String × PyVal) → List String → Except PyExc (List String)
  | [], acc => .ok acc
  | (n, v) :: rest, acc =>
    match checkSuppliedParam spec n v with
    | .error e => .error e
    | .ok es => checkParamsLoop spec rest (acc ++ es)

/-- `BaseTool.validate_params`: the accumulated error list, or the
`TypeError` that a min/max comparison against an incomparable supplied
value raises (that comparison is not guarded by the earlier type check). -/
def validate_params (spec : CapSpec) (params : List (String × PyVal)) :
    Except PyExc (List String) :=
  checkParamsLoop spec params (missingParamErrors spec params)

/-- `BaseTool.format_result`. -/
def format_result (toolName : String) (result : PyVal) : PyVal :=
  .dict [("tool", .str toolName), ("success", .bool true),
         ("result",
           match result with
           | .dict d => .dict d
           | .str s => .str s
           | v => .str (pyStr v))]

/-- `BaseTool.format_error`: exceptions are rendered as
`type(error).__name__: str(error)`, anything else as `str(error)`; the
payload under `result` is always a string. -/
def format_error (toolName : String) (error : PyVal) : PyVal :=
  let errMsg :=
    match error with
    | .exc e => e.ty ++ ": " ++ e.msg
    | v => pyStr v
  .dict [("tool", .str toolName), ("success", .bool false),
         ("result", .str errMsg)]

/-! ### `app/tools/code_execute.py` -/

/-- `CodeExecuteTool`'s declared parameters (`code` required string;
`timeout` optional integer with bounds 1..60). -/
def codeExecuteSpec : CapSpec :=
  [("code", { type := some "string", required := true }),
   ("timeout", { type := some "integer", required := false,
                 minimum := some (.int 1), maximum := some (.int 60) })]

/-- `self.blocked_modules`, in the order of the set literal in the source
(Python set iteration order is unspecified; no claim depends on the order
of the issues list). -/
def blocked_modules : List String :=
  ["os", "sys", "subprocess", "socket", "requests",
   "urllib", "http", "ftplib", "telnetlib", "smtplib",
   "ssl", "pathlib", "shutil", "tempfile", "io",
   "pickle", "importlib", "__builtins__"]

/-- `CodeExecuteTool._check_code_security`: purely textual scan for blocked
imports, dangerous dynamic-evaluation calls, and attribute access on
blocked modules. -/
def check_code_security (code : String) : List String :=
  let importIssues := blocked_modules.filterMap (fun m =>
    if strContains code ("import " ++ m) || strContains code ("from " ++ m) then
      some ("Blocked module import: " ++ m)
    else Option.none)
  let dangerousFuncs := ["eval(", "exec(", "__import__("]
  let funcIssues := dangerousFuncs.filterMap (fun f =>
    if strContains code f then
      some ("Blocked function usage: " ++ (String.mk (f.toList.takeWhile (· != '('))))
    else Option.none)
  let attrIssues := blocked_modules.filterMap (fun m =>
    if strContains code (m ++ ".") then
      some ("Blocked attribute access on module: " ++ m)
    else Option.none)
  importIssues ++ funcIssues ++ attrIssues

/-- The exception raised on the line `security_errors =
self.check_code_security(code)` of `CodeExecuteTool.execute`: the class
only defines `_check_code_security` (leading underscore), so the attribute
lookup fails.  (Python quotes the names in the real message.) -/
def checkSecurityAttrExc : PyExc :=
  ⟨"AttributeError", "CodeExecuteTool object has no attribute check_code_security"⟩

/-- `CodeExecuteTool.execute`.  After parameter validation succeeds, the
very next statement is `security_errors = self.check_code_security(code)`,
which raises `AttributeError` (outside any `try`), so `execute` never
reaches the security scan, the sandbox, or a success return.  (Had the
lookup succeeded, the success path `return self.format_result` would
return the bound method object itself — `format_result` is never called.) -/
def codeExec_execute (params : PyVal) : Except PyExc PyVal :=
  match params with
  | .dict p =>
    match validate_params codeExecuteSpec p with
    | .error e => .error e
    | .ok errs =>
      if errs.isEmpty then
        .error checkSecurityAttrExc
      else
        .ok (format_error "code_execute" (.str (String.intercalate "," errs)))
  | _ => .error ⟨"AttributeError", "params is not a mapping"⟩

/-- Abstract behaviour of one `exec(code, execution_globals)` call inside
`_execute_code`: the output it writes to the redirected stdout/stderr
buffers, whether it raises (and the corresponding traceback text), and the
wall-clock time it takes to run to completion. -/
structure ScriptRun where
  stdout : String
  stderr : String
  raises : Option PyExc
  trace : String
  duration : Rat
deriving DecidableEq, Repr

/-- The result dict assembled at the end of `_execute_code`
(`stdout`, `stderr`, `execution_time`, optional `error`, optional
`traceback`). -/
structure ExecCodeResult where
  stdout : String
  stderr : String
  execution_time : Rat
  error : Option String
  traceback : Option String
deriving DecidableEq, Repr

/-- `CodeExecuteTool._execute_code`, time made explicit.
`firstCheckElapsed` is the wall-clock time already elapsed when the `while
time.time() - start_time < timeout` condition is first evaluated (in the
source this is the instant after `start_time = time.time()`, so it is a few
microseconds).  If that first check passes, the loop body runs
`exec(code, ...)` once — to completion, however long it takes — and then
`break`s, so the `else: execution_timeout = True` branch is unreachable;
only if the very first check already fails is the run marked as a timeout
without executing the script at all. -/
def execute_code (run : ScriptRun) (timeout : Int) (firstCheckElapsed : Rat) :
    ExecCodeResult :=
  if firstCheckElapsed < (timeout : Rat) then
    { stdout := run.stdout, stderr := run.stderr,
      execution_time := firstCheckElapsed + run.duration,
      error := run.raises.map (fun e => e.msg),
      traceback := run.raises.map (fun _ => run.trace) }
  else
    { stdout := "", stderr := "",
      execution_time := firstCheckElapsed,
      error := some ("Execution timed out after " ++ toString timeout ++ " seconds"),
      traceback := Option.none }

/-! ### `app/tools/pdf_parser.py` -/

/-- `settings.PDF_MAX_PAGES` from `app/config.py`. -/
def PDF_MAX_PAGES : Nat := 50

/-- Digit-run parser used by `pyInt`: Python `int()` accepts single
underscores between digits. -/
def parseDigitsGo (acc : Nat) : List Char → Option Nat
  | [] => some acc
  | '_' :: c :: cs =>
      if c.isDigit then parseDigitsGo (acc * 10 + (c.toNat - 48)) cs
      else Option.none
  | ['_'] => Option.none
  | c :: cs =>
      if c.isDigit then parseDigitsGo (acc * 10 + (c.toNat - 48)) cs
      else Option.none

/-- Nonempty all-digit parse. -/
def parseDigits : List Char → Option Nat
  | [] => Option.none
  | c :: cs =>
      if c.isDigit then parseDigitsGo (c.toNat - 48) cs else Option.none

/-- Python `int(s)` on a string: strips whitespace, optional sign, decimal
digits; `none` models the `ValueError` that the source catches. -/
def pyInt (s : String) : Option Int :=
  match (pyStrip s).toList with
  | '+' :: cs => (parseDigits cs).map Int.ofNat
  | '-' :: cs => (parseDigits cs).map (fun n => -(n : Int))
  | cs => (parseDigits cs).map Int.ofNat

/-- Python `list(range(a, b + 1))` over integers. -/
def intRange (a b : Int) : List Int :=
  (List.range (b + 1 - a).toNat).map (fun i => a + i)

/-- The `for part in parts` loop of `_parse_page_range`.  A fragment
containing a hyphen is unpacked with `start, end = part.split("-")`: that
statement is *outside* the `try`, so a fragment that splits into three or
more pieces raises `ValueError` out of the whole parse.  Fragments whose
`int()` conversion fails are skipped (`continue`); a reversed range is
swapped before `range(start, end + 1)` is appended. -/
def collectPageParts : List String → List Int → Except PyExc (List Int)
  | [], acc => .ok acc
  | p :: rest, acc =>
    let part := pyStrip p
    if strContains part "-" then
      match pySplitChar '-' part with
      | [s, e] =>
        match pyInt (pyStrip s), pyInt (pyStrip e) with
        | some a, some b =>
          if b < a then collectPageParts rest (acc ++ intRange b a)
          else collectPageParts rest (acc ++ intRange a b)
        | _, _ => collectPageParts rest acc
      | _ => .error ⟨"ValueError", "too many values to unpack (expected 2)"⟩
    else
      match pyInt part with
      | some n => collectPageParts rest (acc ++ [n])
      | Option.none => collectPageParts rest acc

/-- `PDFParserTool._parse_page_range`: empty (or absent) input yields `[]`;
otherwise split on commas, collect page numbers, `sorted(set(...))`
(embedded as insertion sort of the deduplicated list, which is the same
sorted duplicate-free list), and truncate to `max_pages`. -/
def parse_page_range (maxPages : Nat) (pagesStr : String) :
    Except PyExc (List Int) :=
  if pagesStr == "" then .ok []
  else
    match collectPageParts (pySplitChar ',' pagesStr) [] with
    | .error e => .error e
    | .ok nums =>
      let sortedNums := List.insertionSort (· ≤ ·) nums.dedup
      .ok (if maxPages < sortedNums.length then sortedNums.take maxPages
           else sortedNums)

/-! ### `app/agent/orchestrator.py` -/

/-- The orchestrator's external collaborators, abstracted: the registry
key set (`self.tools`), each tool's `execute(params, context)` (which may
raise), the decision-oracle call of `_select_tools` (OpenAI request +
`json.loads`; `.error` covers a failed call or unparsable reply), and the
response-synthesis call of `_create_response`. -/
structure OrchEnv where
  tools : List String
  run : String → PyVal → PyVal → Except PyExc PyVal
  oracle : String → Except PyExc PyVal
  synth : String → List (String × PyVal) → Except PyExc String

/-- The per-invocation context built in `_execute_tools`:
`{"query": query, "previous_results": results.copy() if results else None}`
(a list of `(tool_name, result)` tuples, or `None` when empty). -/
def mkCtx (query : String) (acc : List (String × PyVal)) : PyVal :=
  .dict [("query", .str query),
         ("previous_results",
           if acc.isEmpty then .pynone
           else .list (acc.map (fun t => .list [.str t.1, t.2])))]

/-- The context of the chained `pdf_parser` call:
`{"query": query, "source": "search_result"}`. -/
def chainCtx (query : String) : PyVal :=
  .dict [("query", .str query), ("source", .str "search_result")]

/-- The `for result in results` loop body of
`_extract_pdf_urls_from_search`: collect `result.get("link", "")` when its
lowercase form ends in `.pdf`.  A non-dict entry (no `.get`) or a
non-string link (no `.lower`) raises inside the surrounding `try`, and the
`except` returns the links collected so far. -/
def collectPdfLinks : List PyVal → List String → List String
  | [], acc => acc
  | entry :: rest, acc =>
    match entry with
    | .dict d =>
      match pyGetD d "link" (.str "") with
      | .str link =>
        if pyEndsWith (pyLower link) ".pdf" then
          collectPdfLinks rest (acc ++ [link])
        else collectPdfLinks rest acc
      | _ => acc
    | _ => acc

/-- `AgentOrchestrator._extract_pdf_urls_from_search`.  The whole body is
wrapped in `try`/`except`, so every raising path degenerates to returning
the URLs accumulated so far (initially `[]`). -/
def extract_pdf_urls_from_search (searchResult : PyVal) : List String :=
  match searchResult with
  | .dict d =>
    if pyTruthy (pyGetD d "success" .pynone) && pyHasKey d "result" then
      match pyLookup d "result" with
      | some (.dict rd) =>
        match pyGetD rd "results" (.list []) with
        | .list entries => collectPdfLinks entries []
        | _ => []
      | _ => []
    else []
  | _ => []

/-- The failed-`ToolResult` dict appended by the `except` branch of
`_execute_tools`: `{"error": str(e), "success": False}`. -/
def errCaptureVal (e : PyExc) : PyVal :=
  .dict [("error", .str e.msg), ("success", .bool false)]

/-- `str(KeyError(name))` raised by `self.tools[tool_name]` on an
unregistered name (Python renders the key in quotes). -/
def keyErrExc (nm : String) : PyExc := ⟨"KeyError", nm⟩

/-- `AttributeError` from `result.get("success", False)` when a tool
returned a non-dict value. -/
def resultGetExc : PyExc :=
  ⟨"AttributeError", "object has no attribute get"⟩

/-- One iteration of the `for tool_name, params in selected_tools` loop of
`_execute_tools`, including the conditional `pdf_parser` chaining after a
successful `web_search` and the `except` branch that converts any raised
failure into a failed ToolResult and moves on.  Note that an exception
raised by the *chained* `pdf_parser` call is caught by the same handler
and recorded under the current `tool_name` (`web_search`), after the
search result has already been appended. -/
def execStep (env : OrchEnv) (query : String)
    (acc : List (String × PyVal)) (inv : String × PyVal) :
    List (String × PyVal) :=
  let nm := inv.1
  let params := inv.2
  if env.tools.contains nm then
    match env.run nm params (mkCtx query acc) with
    | .error e => acc ++ [(nm, errCaptureVal e)]
    | .ok r =>
      let acc1 := acc ++ [(nm, r)]
      if nm == "web_search" && env.tools.contains "pdf_parser" then
        match r with
        | .dict d =>
          if pyTruthy (pyGetD d "success" (.bool false)) then
            match extract_pdf_urls_from_search r with
            | [] => acc1
            | u :: _ =>
              match env.run "pdf_parser" (.dict [("url", .str u)])
                  (chainCtx query) with
              | .ok pr => acc1 ++ [("pdf_parser", pr)]
              | .error e => acc1 ++ [(nm, errCaptureVal e)]
          else acc1
        | _ => acc1 ++ [(nm, errCaptureVal resultGetExc)]
      else acc1
  else acc ++ [(nm, errCaptureVal (keyErrExc nm))]

/-- `_execute_tools` from an intermediate `results` list. -/
def execToolsFrom (env : OrchEnv) (query : String)
    (acc : List (String × PyVal)) (invs : List (String × PyVal)) :
    List (String × PyVal) :=
  invs.foldl (execStep env query) acc

/-- `AgentOrchestrator._execute_tools`. -/
def execTools (env : OrchEnv) (query : String)
    (invs : List (String × PyVal)) : List (String × PyVal) :=
  execToolsFrom env query [] invs

/-- The `for tool in data.get("tools", [])` loop of `_select_tools`: keep a
selection only when its `name` is a registered key (`if tool_name in
self.tools`); for a kept `web_search` selection missing its `query`
parameter, inject the raw user query.  Selections naming unregistered (but
hashable) values are dropped; an unhashable `name`, a non-dict entry, or a
`web_search` entry whose `params` is not a dict raise, which the caller's
`except` turns into the fallback selection. -/
def selectLoop (tools : List String) (query : String) :
    List PyVal → List (String × PyVal) → Except PyExc (List (String × PyVal))
  | [], acc => .ok acc
  | entry :: rest, acc =>
    match entry with
    | .dict d =>
      match pyGetD d "name" .pynone with
      | .str nm =>
        if tools.contains nm then
          if nm == "web_search" then
            match pyGetD d "params" (.dict []) with
            | .dict pd =>
              let pd2 := if pyHasKey pd "query" then pd
                         else pd ++ [("query", .str query)]
              selectLoop tools query rest (acc ++ [(nm, .dict pd2)])
            | .str s =>
              if strContains s "query" then
                selectLoop tools query rest (acc ++ [(nm, .str s)])
              else .error ⟨"TypeError", "str does not support item assignment"⟩
            | .list l =>
              if pyInList (.str "query") l then
                selectLoop tools query rest (acc ++ [(nm, .list l)])
              else .error ⟨"TypeError", "list indices must be integers"⟩
            | _ => .error ⟨"TypeError", "argument of type is not iterable"⟩
          else
            selectLoop tools query rest
              (acc ++ [(nm, pyGetD d "params" (.dict []))])
        else selectLoop tools query rest acc
      | .list _ => .error ⟨"TypeError", "unhashable type: list"⟩
      | .dict _ => .error ⟨"TypeError", "unhashable type: dict"⟩
      | _ => selectLoop tools query rest acc
    | _ => .error ⟨"AttributeError", "object has no attribute get"⟩

/-- Parsing stage of `_select_tools` applied to the decoded oracle reply
`data`: iterate `data.get("tools", [])`.  Iterating a non-list yields
either zero iterations (empty string/dict) or raises on the first entry. -/
def parseSelections (tools : List String) (query : String) (data : PyVal) :
    Except PyExc (List (String × PyVal)) :=
  match data with
  | .dict d =>
    match pyGetD d "tools" (.list []) with
    | .list entries => selectLoop tools query entries []
    | .str "" => .ok []
    | .dict [] => .ok []
    | .str _ => .error ⟨"AttributeError", "str object has no attribute get"⟩
    | .dict _ => .error ⟨"AttributeError", "str object has no attribute get"⟩
    | _ => .error ⟨"TypeError", "object is not iterable"⟩
  | _ => .error ⟨"AttributeError", "object has no attribute get"⟩

/-- The `except` branch of `_select_tools`: fall back to `web_search` with
the raw query when registered, else an empty selection. -/
def fallbackSelection (tools : List String) (query : String) :
    List (String × PyVal) :=
  if tools.contains "web_search" then
    [("web_search", .dict [("query", .str query)])]
  else []

/-- `AgentOrchestrator._select_tools`: the oracle call and the whole
parsing stage sit inside one `try`; any raised failure (failed call,
unparsable reply, malformed entries) produces the fallback selection. -/
def select_tools (tools : List String) (query : String)
    (oracleReply : Except PyExc PyVal) : List (String × PyVal) :=
  match oracleReply with
  | .error _ => fallbackSelection tools query
  | .ok data =>
    match parseSelections tools query data with
    | .ok sels => sels
    | .error _ => fallbackSelection tools query

/-- `AgentOrchestrator._create_response`: the synthesizer's text, or the
formatted apology the `except` branch returns. -/
def create_response (synthReply : Except PyExc String) : String :=
  match synthReply with
  | .ok s => s
  | .error e => "An error occurred while generating the response: " ++ e.msg

/-- Python dict update `d[k] = v`: overwrite in place or append. -/
def dictSet (d : List (String × PyVal)) (k : String) (v : PyVal) :
    List (String × PyVal) :=
  if pyHasKey d k then d.map (fun kv => if kv.1 == k then (k, v) else kv)
  else d ++ [(k, v)]

/-- The dict comprehension `{t: r for t, r in tool_results}` (later
occurrences of a name overwrite earlier ones). -/
def dictOfPairs (l : List (String × PyVal)) : List (String × PyVal) :=
  l.foldl (fun d kv => dictSet d kv.1 kv.2) []

/-- Conversation state owned by one `AgentOrchestrator`. -/
structure OrchState where
  conversation_id : String
  messages : List (String × String)

/-- `AgentOrchestrator.process_query`: append the user message, select
tools, execute them, synthesize the answer, append the assistant message,
and return the result dict. -/
def process_query (env : OrchEnv) (st : OrchState) (query : String) :
    OrchState × PyVal :=
  let msgs1 := st.messages ++ [("user", query)]
  let sel := select_tools env.tools query (env.oracle query)
  let results := execTools env query sel
  let response := create_response (env.synth query results)
  let msgs2 := msgs1 ++ [("assistant", response)]
  ({ st with messages := msgs2 },
   .dict [("conversation_id", .str st.conversation_id),
          ("query", .str query),
          ("response", .str response),
          ("tools_used", .list (sel.map (fun t => .str t.1))),
          ("tool_results", .dict (dictOfPairs results))])

/-! ### Helper predicates and concrete fixtures used by the theorems -/

/-- Whether an `Except` computation succeeded. -/
def exceptOk {α : Type} (x : Except PyExc α) : Bool :=
  match x with
  | .ok _ => true
  | .error _ => false

/-- One supplied parameter is order-comparable with its declared
`minimum`/`maximum` bounds (if any). -/
def entryMinMaxOk (spec : CapSpec) (kv : String × PyVal) : Bool :=
  match List.lookup kv.1 spec with
  | Option.none => true
  | some ps =>
    (match ps.minimum with
     | Option.none => true
     | some m => exceptOk (pyLt kv.2 m)) &&
    (match ps.maximum with
     | Option.none => true
     | some m => exceptOk (pyGt kv.2 m))

/-- Every supplied parameter with a declared `minimum`/`maximum` is
order-comparable with the bound (so `validate_params` cannot raise
`TypeError`). -/
def minmaxComparable (spec : CapSpec) (params : List (String × PyVal)) : Bool :=
  params.all (entryMinMaxOk spec)

/-- The value is a dict whose field `k` is present and is a string. -/
def payloadFieldIsStr (v : PyVal) (k : String) : Bool :=
  match v with
  | .dict d =>
    match pyLookup d k with
    | some (.str _) => true
    | _ => false
  | _ => false

/-- Entries of a successful `web_search` ToolResult whose payload holds
three result entries, the second and third with `.pdf` links (the second
upper-case). -/
def searchResultEntries : List (String × PyVal) :=
  [("tool", .str "web_search"), ("success", .bool true),
   ("result", .dict [("results", .list
     [.dict [("title", .str "a"), ("link", .str "http://x/a.html")],
      .dict [("title", .str "b"), ("link", .str "http://x/B.PDF")],
      .dict [("title", .str "c"), ("link", .str "http://x/c.pdf")]])])]

/-- The corresponding ToolResult value. -/
def searchResultWithPdf : PyVal := .dict searchResultEntries

/-- A successful `pdf_parser` ToolResult fixture. -/
def pdfParseResult : PyVal :=
  .dict [("tool", .str "pdf_parser"), ("success", .bool true),
         ("result", .str "pdf text")]

/-- Environment with `web_search` and `pdf_parser` registered; `web_search`
returns `searchResultWithPdf`, everything else returns `pdfParseResult`. -/
def envChain : OrchEnv :=
  { tools := ["web_search", "pdf_parser"],
    run := fun nm _ _ =>
      if nm == "web_search" then .ok searchResultWithPdf else .ok pdfParseResult,
    oracle := fun _ => .error ⟨"Exception", "oracle down"⟩,
    synth := fun _ _ => .ok "answer" }

/-- A well-formed oracle reply whose only selection names an unregistered
tool. -/
def ghostReply : PyVal :=
  .dict [("tools", .list
           [.dict [("name", .str "ghost"), ("params", .dict [])]]),
         ("reasoning", .str "use ghost")]

/-- Environment where tool `t` raises an exception whose `str` is empty and
tool `t2` succeeds. -/
def envRaiseEmpty : OrchEnv :=
  { tools := ["t", "t2"],
    run := fun nm _ _ =>
      if nm == "t" then .error ⟨"Exception", ""⟩ else .ok (.str "ok"),
    oracle := fun _ => .error ⟨"Exception", "oracle down"⟩,
    synth := fun _ _ => .ok "answer" }

/-- Environment where tool `t` raises `ValueError: boom` and tool `t2`
succeeds. -/
def envRaiseBoom : OrchEnv :=
  { tools := ["t", "t2"],
    run := fun nm _ _ =>
      if nm == "t" then .error ⟨"ValueError", "boom"⟩ else .ok (.str "ok"),
    oracle := fun _ => .error ⟨"Exception", "oracle down"⟩,
    synth := fun _ _ => .ok "answer" }

/-- A script execution that writes `looped` to stdout, raises nothing, and
takes 100 seconds of wall-clock time. -/
def longScriptRun : ScriptRun :=
  { stdout := "looped", stderr := "", raises := Option.none,
    trace := "", duration := 100 }

/-! ### Theorems -/

/-- C2: the claim says a script with no security violation and valid
parameters executes and returns a successful ToolResult carrying the
script's stdout.  In the code, `execute` reaches
`self.check_code_security(code)` right after validation — an attribute the
class does not define (the method is `_check_code_security`) — so it
raises `AttributeError` instead of returning any ToolResult; the success
path would moreover `return self.format_result` without calling it. -/
theorem codeExecute_success_path_raises_attribute_error :
    check_code_security "print(1)" = [] ∧
    codeExec_execute (.dict [("code", .str "print(1)")]) =
      .error checkSecurityAttrExc :=
  ⟨rfl, rfl⟩

/-- C3: the claim says a script running longer than the timeout bound is
abandoned and flagged as a timeout.  In `_execute_code` the wall-clock
check happens only *before* the single `exec` attempt, so a script taking
100 seconds under a 1-second timeout still runs to completion, its result
carries no error/timeout marker, and its reported elapsed time is the full
100 seconds. -/
theorem execute_code_never_flags_timeout :
    (1 : Rat) < longScriptRun.duration ∧
    execute_code longScriptRun 1 0 =
      { stdout := "looped", stderr := "", execution_time := 100,
        error := Option.none, traceback := Option.none } := by
  constructor
  · decide
  · simp only [execute_code, longScriptRun]
    norm_num

/-- C4: the claim says a script containing a denylisted module reference is
rejected pre-run and reported as a failed ToolResult, never silently.  The
scan `_check_code_security` would indeed flag `import os`, but `execute`
raises `AttributeError` at `self.check_code_security(code)` (the method
name lacks the underscore), so no ToolResult — failed or otherwise — is
ever returned. -/
theorem codeExecute_security_rejection_unreachable :
    check_code_security "import os" = ["Blocked module import: os"] ∧
    codeExec_execute (.dict [("code", .str "import os")]) =
      .error checkSecurityAttrExc :=
  ⟨rfl, rfl⟩

/-- C8: every failed ToolResult constructor in the pipeline —
`BaseTool.format_error` (payload under `result`) and the engine's
per-invocation capture (payload under `error`) — stores a string
diagnostic, never a raw exception object, whatever value or exception it
is given. -/
theorem failed_toolresult_payload_is_string (toolName : String)
    (error : PyVal) (e : PyExc) :
    payloadFieldIsStr (format_error toolName error) "result" = true ∧
    payloadFieldIsStr (errCaptureVal e) "error" = true :=
  ⟨rfl, rfl⟩

/-- C9: `process_query` appends the user message and then the assistant
message to the conversation's message list, so reading the history back
after a processed query yields both messages in insertion order with their
roles (`user`, then `assistant`) preserved. -/
theorem process_query_appends_user_then_assistant (env : OrchEnv)
    (st : OrchState) (query : String) :
    ∃ response,
      (process_query env st query).1.messages =
        st.messages ++ [("user", query), ("assistant", response)] := by
  refine ⟨create_response (env.synth query (execTools env query
    (select_tools env.tools query (env.oracle query)))), ?_⟩
  simp [process_query]

/-- C5 counterexample: a well-formed oracle reply whose only selection
names an unregistered tool yields an *empty* selection even though
`web_search` is registered — the documented fallback (which would be
`[("web_search", {"query": q})]`) is not triggered, because the fallback
lives only in the `except` branch of `_select_tools`. -/
theorem select_tools_empty_valid_selection_no_fallback :
    select_tools ["web_search"] "q" (.ok ghostReply) = [] ∧
    fallbackSelection ["web_search"] "q" =
      [("web_search", .dict [("query", .str "q")])] :=
  ⟨rfl, rfl⟩

/-- C6 counterexample: a tool that raises an exception whose `str` is empty
is recorded with an *empty* diagnostic string (`{"error": "", "success":
False}`), contradicting the claim's "non-empty diagnostic string";
subsequent invocations do still execute. -/
theorem execute_tools_diagnostic_can_be_empty :
    execTools envRaiseEmpty "q" [("t", .dict []), ("t2", .dict [])] =
      [("t", .dict [("error", .str ""), ("success", .bool false)]),
       ("t2", .str "ok")] :=
  rfl

/-- C7 counterexample: with `code_execute`'s real spec, the parameter map
`{"timeout": "ten", "oops": 1}` has a missing required parameter (`code`)
and an unknown parameter (`oops`), yet `validate_params` produces no error
list at all: the `minimum` comparison `"ten" < 1` raises `TypeError`
before the loop finishes, so no result enumerates the violations. -/
theorem validate_params_raises_before_reporting :
    validate_params codeExecuteSpec
        [("timeout", .str "ten"), ("oops", .int 1)] =
      .error ⟨"TypeError", "unsupported operand types for comparison"⟩ ∧
    List.lookup "oops" codeExecuteSpec = Option.none ∧
    pyHasKey [("timeout", PyVal.str "ten"), ("oops", PyVal.int 1)] "code" =
      false ∧
    (codeExecuteSpec.head?.map (fun kv => kv.2.required)) = some true :=
  ⟨rfl, rfl, rfl, rfl⟩

/-- C10 counterexample: the page-range parser is claimed never to raise,
but a fragment with two hyphens makes `start, end = part.split("-")`
(outside the `try`) raise `ValueError`, failing the whole parse. -/
theorem parse_page_range_raises_on_double_hyphen :
    parse_page_range PDF_MAX_PAGES "1-2-3" =
      .error ⟨"ValueError", "too many values to unpack (expected 2)"⟩ :=
  rfl

/-- C1: when `web_search` executes without raising and returns a successful
result whose structured payload contains at least one entry with a
(case-insensitively) `.pdf` link, and `pdf_parser` is registered, the
engine executes exactly one chained `pdf_parser` invocation against the
first such link and appends its result immediately after the triggering
search result — and nothing else — for that search result set. -/
theorem web_search_chains_one_pdf_tool
    (env : OrchEnv) (query : String) (acc : List (String × PyVal))
    (params : PyVal) (d : List (String × PyVal)) (u : String)
    (us : List String) (pr : PyVal)
    (hws : env.tools.contains "web_search" = true)
    (hpdf : env.tools.contains "pdf_parser" = true)
    (hrun : env.run "web_search" params (mkCtx query acc) = .ok (.dict d))
    (hsucc : pyTruthy (pyGetD d "success" (.bool false)) = true)
    (hlinks : extract_pdf_urls_from_search (.dict d) = u :: us)
    (hchain : env.run "pdf_parser" (.dict [("url", .str u)])
        (chainCtx query) = .ok pr) :
    execStep env query acc ("web_search", params) =
      acc ++ [("web_search", .dict d), ("pdf_parser", pr)] := by
  have hws2 : "web_search" ∈ env.tools := by simpa using hws
  have hpdf2 : "pdf_parser" ∈ env.tools := by simpa using hpdf
  simp [execStep, hws2, hpdf2, hrun, hsucc, hlinks, hchain]

/-- C1 witness: the chaining theorem applied to the concrete environment
`envChain` and the concrete search result `searchResultWithPdf`, whose
first `.pdf` link is the upper-case `http://x/B.PDF`. -/
theorem web_search_chains_one_pdf_tool_witness :
    extract_pdf_urls_from_search (.dict searchResultEntries) =
      "http://x/B.PDF" :: ["http://x/c.pdf"] ∧
    execStep envChain "q" [] ("web_search", .dict [("query", .str "q")]) =
      [("web_search", .dict searchResultEntries),
       ("pdf_parser", pdfParseResult)] :=
  ⟨rfl,
   web_search_chains_one_pdf_tool envChain "q" []
     (.dict [("query", .str "q")]) searchResultEntries
     "http://x/B.PDF" ["http://x/c.pdf"] pdfParseResult
     rfl rfl rfl rfl rfl rfl⟩

/-- C6 (amended): when an invocation's tool raises, the engine records a
ToolResult with `success = false` whose diagnostic is the exception's
`str` (which may be the empty string), and continues executing every
subsequent invocation of the run from the extended result list. -/
theorem execute_tools_captures_failure_and_continues
    (env : OrchEnv) (query : String) (acc : List (String × PyVal))
    (nm : String) (params : PyVal) (rest : List (String × PyVal))
    (e : PyExc)
    (hreg : env.tools.contains nm = true)
    (hrun : env.run nm params (mkCtx query acc) = .error e) :
    execToolsFrom env query acc ((nm, params) :: rest) =
      execToolsFrom env query
        (acc ++ [(nm, .dict [("error", .str e.msg), ("success", .bool false)])])
        rest := by
  have hreg2 : nm ∈ env.tools := by simpa using hreg
  simp only [execToolsFrom, List.foldl_cons]
  congr 1
  simp [execStep, hreg2, hrun, errCaptureVal]

/-- C6 witness: the capture-and-continue theorem applied to `envRaiseBoom`,
whose tool `t` raises `ValueError: boom` while `t2` is still to run. -/
theorem execute_tools_captures_failure_witness :
    envRaiseBoom.run "t" (.dict []) (mkCtx "q" []) =
      .error ⟨"ValueError", "boom"⟩ ∧
    execToolsFrom envRaiseBoom "q" [] [("t", .dict []), ("t2", .dict [])] =
      execToolsFrom envRaiseBoom "q"
        [("t", .dict [("error", .str "boom"), ("success", .bool false)])]
        [("t2", .dict [])] :=
  ⟨rfl,
   execute_tools_captures_failure_and_continues envRaiseBoom "q" [] "t"
     (.dict []) [("t2", .dict [])] ⟨"ValueError", "boom"⟩ rfl rfl⟩

theorem selectLoop_mem_registered (tools : List String) (query : String) :
    ∀ (entries : List PyVal) (acc sels : List (String × PyVal)),
      selectLoop tools query entries acc = .ok sels →
      (∀ p ∈ acc, tools.contains p.1 = true) →
      ∀ p ∈ sels, tools.contains p.1 = true := by
  intro entries
  induction entries with
  | nil =>
    intro acc sels h hacc
    simp only [selectLoop, Except.ok.injEq] at h
    subst h
    exact hacc
  | cons e rest ih =>
    intro acc sels h hacc
    cases e with
    | str s => simp [selectLoop] at h
    | bool b => simp [selectLoop] at h
    | int n => simp [selectLoop] at h
    | pynone => simp [selectLoop] at h
    | list l => simp [selectLoop] at h
    | exc ex => simp [selectLoop] at h
    | dict d =>
      simp only [selectLoop] at h
      cases hn : pyGetD d "name" .pynone with
      | str nm =>
        simp only [hn] at h
        by_cases hr : tools.contains nm = true
        · have hext : ∀ (X : PyVal), ∀ p ∈ acc ++ [(nm, X)],
              tools.contains p.1 = true := by
            intro X p hp
            rcases List.mem_append.mp hp with h1 | h1
            · exact hacc p h1
            · rw [List.mem_singleton.mp h1]
              exact hr
          simp only [hr, if_true] at h
          by_cases hw : (nm == "web_search") = true
          · simp only [hw, if_true] at h
            cases hp : pyGetD d "params" (.dict []) with
            | dict pd =>
              simp only [hp] at h
              exact ih _ _ h (hext _)
            | str s =>
              simp only [hp] at h
              by_cases hq : strContains s "query" = true
              · simp only [hq, if_true] at h
                exact ih _ _ h (hext _)
              · simp only [eq_false_of_ne_true hq, if_false] at h
                simp at h
            | list l =>
              simp only [hp] at h
              by_cases hq : pyInList (.str "query") l = true
              · simp only [hq, if_true] at h
                exact ih _ _ h (hext _)
              · simp only [eq_false_of_ne_true hq, if_false] at h
                simp at h
            | bool b => simp only [hp] at h; simp at h
            | int n => simp only [hp] at h; simp at h
            | pynone => simp only [hp] at h; simp at h
            | exc ex => simp only [hp] at h; simp at h
          · simp only [eq_false_of_ne_true hw, if_false] at h
            exact ih _ _ h (hext _)
        · simp only [eq_false_of_ne_true hr, if_false] at h
          exact ih _ _ h hacc
      | bool b => simp only [hn] at h; exact ih _ _ h hacc
      | int n => simp only [hn] at h; exact ih _ _ h hacc
      | pynone => simp only [hn] at h; exact ih _ _ h hacc
      | exc ex => simp only [hn] at h; exact ih _ _ h hacc
      | list l => simp only [hn] at h; simp at h
      | dict dd => simp only [hn] at h; simp at h

theorem parseSelections_mem_registered (tools : List String) (query : String)
    (data : PyVal) (sels : List (String × PyVal))
    (h : parseSelections tools query data = .ok sels) :
    ∀ p ∈ sels, tools.contains p.1 = true := by
  cases data with
  | dict d =>
    simp only [parseSelections] at h
    cases hg : pyGetD d "tools" (.list []) with
    | list entries =>
      simp only [hg] at h
      exact selectLoop_mem_registered tools query entries [] sels h (by simp)
    | str s =>
      simp only [hg] at h
      by_cases hs : s = ""
      · subst hs
        simp only [Except.ok.injEq] at h
        rw [← h]
        simp
      · simp [hs] at h
    | dict dd =>
      simp only [hg] at h
      cases dd with
      | nil =>
        simp only [Except.ok.injEq] at h
        rw [← h]
        simp
      | cons a b => simp at h
    | bool b => simp only [hg] at h; simp at h
    | int n => simp only [hg] at h; simp at h
    | pynone => simp only [hg] at h; simp at h
    | exc ex => simp only [hg] at h; simp at h
  | str s => simp [parseSelections] at h
  | bool b => simp [parseSelections] at h
  | int n => simp [parseSelections] at h
  | pynone => simp [parseSelections] at h
  | list l => simp [parseSelections] at h
  | exc ex => simp [parseSelections] at h

theorem fallbackSelection_mem_registered (tools : List String) (query : String) :
    ∀ p ∈ fallbackSelection tools query, tools.contains p.1 = true := by
  intro p hp
  unfold fallbackSelection at hp
  by_cases hw : tools.contains "web_search" = true
  · simp only [hw, if_true] at hp
    rw [List.mem_singleton.mp hp]
    exact hw
  · simp [eq_false_of_ne_true hw] at hp
    rw [hp.2]
    simpa using hp.1

/-- C5 (amended): the adapter drops every selection naming an unregistered
tool (every returned selection names a registered tool, in the fallback
case included); the documented `web_search` fallback fires when the oracle
call raises or its reply is malformed — but *not* when a well-formed reply
yields an empty valid selection: that case returns the empty selection
even when a search capability is registered. -/
theorem select_tools_drops_unregistered_fallback_on_error_only
    (tools : List String) (query : String) :
    (∀ (reply : Except PyExc PyVal) (p : String × PyVal),
        p ∈ select_tools tools query reply → tools.contains p.1 = true) ∧
    (∀ (e : PyExc), tools.contains "web_search" = true →
        select_tools tools query (.error e) =
          [("web_search", .dict [("query", .str query)])]) ∧
    (∀ (data : PyVal), parseSelections tools query data = .ok [] →
        select_tools tools query (.ok data) = []) := by
  refine ⟨?_, ?_, ?_⟩
  · intro reply p hp
    cases reply with
    | error e =>
      simp only [select_tools] at hp
      exact fallbackSelection_mem_registered tools query p hp
    | ok data =>
      simp only [select_tools] at hp
      cases hps : parseSelections tools query data with
      | error e2 =>
        simp only [hps] at hp
        exact fallbackSelection_mem_registered tools query p hp
      | ok sels =>
        simp only [hps] at hp
        exact parseSelections_mem_registered tools query data sels hps p hp
  · intro e hw
    simp only [select_tools, fallbackSelection, hw, if_true]
  · intro data hps
    simp only [select_tools, hps]

/-- C5 witness: the amended selection theorem applied with registry
`["web_search"]`: a raised oracle call yields the fallback, and the
well-formed `ghostReply` (whose only selection names the unregistered
`ghost`) yields the empty selection. -/
theorem select_tools_amended_witness :
    List.contains ["web_search"] "web_search" = true ∧
    select_tools ["web_search"] "q" (.error ⟨"Exception", "oracle down"⟩) =
      [("web_search", .dict [("query", .str "q")])] ∧
    select_tools ["web_search"] "q" (.ok ghostReply) = [] :=
  ⟨rfl,
   (select_tools_drops_unregistered_fallback_on_error_only
     ["web_search"] "q").2.1 ⟨"Exception", "oracle down"⟩ rfl,
   (select_tools_drops_unregistered_fallback_on_error_only
     ["web_search"] "q").2.2 ghostReply rfl⟩

theorem checkSuppliedParam_unknown (spec : CapSpec) (n : String) (v : PyVal)
    (hl : List.lookup n spec = Option.none) :
    checkSuppliedParam spec n v = .ok ["Unknown parameter: " ++ n] := by
  unfold checkSuppliedParam
  rw [hl]

theorem checkSuppliedParam_isOk (spec : CapSpec) (n : String) (v : PyVal)
    (h : entryMinMaxOk spec (n, v) = true) :
    exceptOk (checkSuppliedParam spec n v) = true := by
  unfold entryMinMaxOk at h
  cases hl : List.lookup n spec with
  | none => simp [checkSuppliedParam, hl, exceptOk]
  | some ps =>
    simp only [hl] at h
    simp only [checkSuppliedParam, hl]
    cases hmin : ps.minimum with
    | none =>
      simp only [hmin] at h ⊢
      cases hmax : ps.maximum with
      | none => simp [hmax, exceptOk]
      | some m =>
        simp only [hmax, Bool.and_eq_true] at h ⊢
        cases hgt : pyGt v m with
        | error e => simp [hgt, exceptOk] at h
        | ok gt => simp [hgt, exceptOk]
    | some lo =>
      simp only [hmin, Bool.and_eq_true] at h ⊢
      cases hlt : pyLt v lo with
      | error e => simp [hlt, exceptOk] at h
      | ok lt =>
        simp only [hlt]
        cases hmax : ps.maximum with
        | none => simp [hmax, exceptOk]
        | some m =>
          simp only [hmax] at h ⊢
          cases hgt : pyGt v m with
          | error e => simp [hgt, exceptOk] at h
          | ok gt => simp [hgt, exceptOk]

theorem checkParamsLoop_ok (spec : CapSpec) :
    ∀ (params : List (String × PyVal)) (acc : List String),
      minmaxComparable spec params = true →
      ∃ tail, checkParamsLoop spec params acc = .ok (acc ++ tail) ∧
        ∀ n v, (n, v) ∈ params → List.lookup n spec = Option.none →
          ("Unknown parameter: " ++ n) ∈ tail := by
  intro params
  induction params with
  | nil =>
    intro acc _
    exact ⟨[], by simp [checkParamsLoop], by simp⟩
  | cons kv rest ih =>
    intro acc h
    obtain ⟨n, v⟩ := kv
    simp only [minmaxComparable, List.all_cons, Bool.and_eq_true] at h
    have hok := checkSuppliedParam_isOk spec n v h.1
    cases hcs : checkSuppliedParam spec n v with
    | error e => rw [hcs] at hok; simp [exceptOk] at hok
    | ok es =>
      obtain ⟨tail, hloop, hmem⟩ :=
        ih (acc ++ es) (by simpa [minmaxComparable] using h.2)
      refine ⟨es ++ tail, ?_, ?_⟩
      · simp only [checkParamsLoop, hcs]
        rw [hloop, List.append_assoc]
      · intro n2 v2 hmem2 hl2
        rcases List.mem_cons.mp hmem2 with heq | hrest
        · injection heq with hn hv
          subst hn
          apply List.mem_append_left
          have h2 := checkSuppliedParam_unknown spec n2 v hl2
          rw [hcs] at h2
          simp only [Except.ok.injEq] at h2
          rw [h2]
          simp
        · exact List.mem_append_right _ (hmem n2 v2 hrest hl2)

/-- C7 (amended): provided every supplied parameter with a declared numeric
bound is order-comparable with it (otherwise the unguarded `<`/`>`
comparison raises `TypeError` and no error list is produced at all),
`validate_params` returns a list that names every required-but-missing
parameter and contains an error naming every supplied parameter not
declared in the spec — all violations, not only the first. -/
theorem validate_params_reports_all_missing_and_unknown
    (spec : CapSpec) (params : List (String × PyVal))
    (h : minmaxComparable spec params = true) :
    ∃ errs, validate_params spec params = .ok errs ∧
      (∀ n ps, (n, ps) ∈ spec → ps.required = true →
        pyHasKey params n = false →
        ("Missing required parameter: " ++ n) ∈ errs) ∧
      (∀ n v, (n, v) ∈ params → List.lookup n spec = Option.none →
        ("Unknown parameter: " ++ n) ∈ errs) := by
  obtain ⟨tail, hloop, hmem⟩ :=
    checkParamsLoop_ok spec params (missingParamErrors spec params) h
  refine ⟨_, hloop, ?_, ?_⟩
  · intro n ps hmemspec hreq hmiss
    apply List.mem_append_left
    unfold missingParamErrors
    apply List.mem_filterMap.mpr
    exact ⟨(n, ps), hmemspec, by simp [hreq, hmiss]⟩
  · intro n v hin hl
    exact List.mem_append_right _ (hmem n v hin hl)

/-- C7 witness: the validation theorem applied to `code_execute`'s spec and
the parameter map `{"oops": 1}`, which misses the required `code` and
supplies the unknown `oops`. -/
theorem validate_params_reports_witness :
    minmaxComparable codeExecuteSpec [("oops", PyVal.int 1)] = true ∧
    (∃ errs,
      validate_params codeExecuteSpec [("oops", PyVal.int 1)] = .ok errs ∧
      (∀ n ps, (n, ps) ∈ codeExecuteSpec → ps.required = true →
        pyHasKey [("oops", PyVal.int 1)] n = false →
        ("Missing required parameter: " ++ n) ∈ errs) ∧
      (∀ n v, (n, v) ∈ [("oops", PyVal.int 1)] →
        List.lookup n codeExecuteSpec = Option.none →
        ("Unknown parameter: " ++ n) ∈ errs)) :=
  ⟨rfl,
   validate_params_reports_all_missing_and_unknown codeExecuteSpec
     [("oops", PyVal.int 1)] rfl⟩

theorem collectPageParts_ok :
    ∀ (parts : List String) (acc : List Int),
      (∀ p ∈ parts, strContains (pyStrip p) "-" = true →
        (pySplitChar '-' (pyStrip p)).length = 2) →
      ∃ nums, collectPageParts parts acc = .ok nums := by
  intro parts
  induction parts with
  | nil => intro acc _; exact ⟨acc, rfl⟩
  | cons p rest ih =>
    intro acc h
    have hp := h p (List.mem_cons_self p rest)
    have hrest : ∀ q ∈ rest, strContains (pyStrip q) "-" = true →
        (pySplitChar '-' (pyStrip q)).length = 2 :=
      fun q hq => h q (List.mem_cons_of_mem p hq)
    by_cases hc : strContains (pyStrip p) "-" = true
    · obtain ⟨s, e, hse⟩ := List.length_eq_two.mp (hp hc)
      simp only [collectPageParts, hc, if_true, hse]
      cases h1 : pyInt (pyStrip s) with
      | none => exact ih _ hrest
      | some a =>
        cases h2 : pyInt (pyStrip e) with
        | none => exact ih _ hrest
        | some b =>
          by_cases hba : b < a
          · simp only [hba, if_true]
            exact ih _ hrest
          · simp only [hba, if_false]
            exact ih _ hrest
    · simp only [collectPageParts, eq_false_of_ne_true hc, if_false]
      cases h1 : pyInt (pyStrip p) with
      | none => exact ih _ hrest
      | some nn => exact ih _ hrest

/-- C10 (amended): provided every comma-separated fragment containing a
hyphen splits into exactly two hyphen-separated pieces (otherwise the
unpacking `start, end = part.split("-")` — which sits outside the `try` —
raises `ValueError`), the page-range parser returns a sorted list of
distinct integers of length at most the configured maximum page count;
unparsable numeric fragments are skipped, and a reversed range `a-b` with
`b < a` is normalized to the range from `b` to `a` (witnessed by the
concrete `5-2`). -/
theorem parse_page_range_sorted_bounded (maxPages : Nat) (pagesStr : String)
    (h : ∀ p ∈ pySplitChar ',' pagesStr, strContains (pyStrip p) "-" = true →
      (pySplitChar '-' (pyStrip p)).length = 2) :
    (∃ l, parse_page_range maxPages pagesStr = .ok l ∧
      List.Sorted (· ≤ ·) l ∧ l.Nodup ∧ l.length ≤ maxPages) ∧
    parse_page_range PDF_MAX_PAGES "5-2" = .ok [2, 3, 4, 5] := by
  refine ⟨?_, rfl⟩
  by_cases he : (pagesStr == "") = true
  · refine ⟨[], ?_, List.sorted_nil, List.nodup_nil, by simp⟩
    unfold parse_page_range
    rw [if_pos he]
  · obtain ⟨nums, hnums⟩ := collectPageParts_ok (pySplitChar ',' pagesStr) [] h
    have hsorted : List.Sorted (· ≤ ·) (List.insertionSort (· ≤ ·) nums.dedup) :=
      List.sorted_insertionSort _ _
    have hnodup : (List.insertionSort (· ≤ ·) nums.dedup).Nodup :=
      ((List.perm_insertionSort _ _).nodup_iff).mpr (List.nodup_dedup _)
    by_cases hlen : maxPages < (List.insertionSort (· ≤ ·) nums.dedup).length
    · refine ⟨(List.insertionSort (· ≤ ·) nums.dedup).take maxPages, ?_, ?_, ?_, ?_⟩
      · unfold parse_page_range
        rw [if_neg he]
        simp only [hnums]
        rw [if_pos hlen]
      · exact List.Pairwise.sublist (List.take_sublist _ _) hsorted
      · exact List.Nodup.sublist (List.take_sublist _ _) hnodup
      · rw [List.length_take]
        exact Nat.min_le_left _ _
    · refine ⟨List.insertionSort (· ≤ ·) nums.dedup, ?_, hsorted, hnodup,
        Nat.le_of_not_lt hlen⟩
      unfold parse_page_range
      rw [if_neg he]
      simp only [hnums]
      rw [if_neg hlen]

/-- C10 witness: the amended page-range theorem applied to the concrete
input `1,5-3,x` with the configured maximum of 50 pages. -/
theorem parse_page_range_sorted_bounded_witness :
    (∀ p ∈ pySplitChar ',' "1,5-3,x", strContains (pyStrip p) "-" = true →
      (pySplitChar '-' (pyStrip p)).length = 2) ∧
    ((∃ l, parse_page_range 50 "1,5-3,x" = .ok l ∧
      List.Sorted (· ≤ ·) l ∧ l.Nodup ∧ l.length ≤ 50) ∧
    parse_page_range PDF_MAX_PAGES "5-2" = .ok [2, 3, 4, 5]) :=
  ⟨by decide, parse_page_range_sorted_bounded 50 "1,5-3,x" (by decide)⟩
